import Mathlib

/-!
Shallow embedding of `pytest_watch/config.py` (the only source file of the
repository) together with the parts of the Python standard library
`configparser` that the source calls into.  The embedding follows the source
line by line:

* `arraySub` models the `re.sub` call in `MultiLineConfigParser.read`
  (config.py lines 42-55) with the pattern
  `^(?P<key>\s*[^=\s]+\s*=\s*)\[(?P<items>.*?)\]` under `re.DOTALL | re.MULTILINE`.
* `replaceArrayItems` models the `_replace_array` list comprehension
  (config.py lines 47-53).  Note that the replacement string in the source is
  built with the f-string `f"{match.group('key')}{'\\n'.join(items)}"`: the
  Python literal `'\\n'` is the two-character string backslash-`n`, not a
  newline, so the items are joined by a literal backslash-`n`.
* `readString` models stdlib `RawConfigParser.read_string`/`_read` for the
  constructs appearing in this repository's config files: `[section]` headers,
  `key = value` / `key : value` option lines, indented continuation lines
  (joined with a real newline and right-stripped at the end), blank lines,
  full-line comments, duplicate detection (strict mode, the default) and the
  `MissingSectionHeaderError`/`ParsingError` failure modes - including the
  stdlib's deferred non-fatal errors: a delimiterless line or an empty option
  name records a `ParsingError` that `_read` raises only after the last line,
  while header/duplicate errors raise immediately.  Option names are
  lowercased by the default `optionxform`.  The `DEFAULT` section and `%`
  interpolation are not exercised by any input considered here and are not
  modelled: the model treats `[DEFAULT]` as an ordinary section (the stdlib
  stores it in `_defaults`, allows repeating its header, hides it from
  `has_section` and lets `has_option` fall back to it), so on `DEFAULT`-using
  inputs the model can only report errors the stdlib does not, narrowing -
  never widening - the reach of any `read`-succeeds hypothesis.
* `superGetCall` models the call expression
  `super().get(section, option, raw, vars, fallback)` in
  `MultiLineConfigParser.get` (config.py line 22).  In every Python 3 release
  the stdlib signature is `RawConfigParser.get(self, section, option, *, raw=False,
  vars=None, fallback=_UNSET)` - `raw`, `vars` and `fallback` are keyword-only -
  so the source's positional call raises
  `TypeError: RawConfigParser.get() takes 3 positional arguments but 6 were given`
  before any lookup happens.  (The f-string on line 53 of the source also pins
  the supported interpreter to Python 3.12+, where this signature holds.)
* `merge_config`, `collectConfig`, `runPytestCollect` model the corresponding
  functions with the outcome of `pytest.main` abstracted into a `PytestResult`
  oracle and the filesystem abstracted into a `String -> Option String` map.

All text processing is done on `List Char` (with `String` at the boundaries)
so every definition evaluates by kernel reduction on concrete inputs.
-/

deriving instance DecidableEq for Except

namespace PytestWatch

/-- Python `\s` for ASCII text (also the character class used by `str.strip`):
space, tab, newline, carriage return, vertical tab, form feed. -/
def isPySpace (c : Char) : Bool :=
  c = ' ' || c = '\t' || c = '\n' || c = '\r' || c = '\x0b' || c = '\x0c'

/-- The double-quote character. -/
def dquote : Char := Char.ofNat 34

/-- The single-quote character. -/
def squote : Char := Char.ofNat 39

/-- Python `str.strip()` on a character list: drop the characters of `\s` from
both ends. -/
def pyStripList (cs : List Char) : List Char :=
  ((cs.dropWhile isPySpace).reverse.dropWhile isPySpace).reverse

/-- Python `str.strip(q)` for a one-character argument: drop ALL leading and
ALL trailing occurrences of `q` (both ends handled independently). -/
def pyStripAllChar (q : Char) (cs : List Char) : List Char :=
  ((cs.dropWhile (· = q)).reverse.dropWhile (· = q)).reverse

/-- Python `str.rstrip()` on a character list. -/
def pyRStripList (cs : List Char) : List Char :=
  (cs.reverse.dropWhile isPySpace).reverse

/-- Python `str.lower()` for the ASCII text appearing here. -/
def pyLower (cs : List Char) : List Char := cs.map Char.toLower

/-- Python `text.split(sep)` for a one-character separator: splitting the empty
string yields `[[]]` (Python's `['']`), and every separator occurrence opens a
new chunk. -/
def splitOnChar (sep : Char) : List Char → List (List Char)
  | [] => [[]]
  | c :: cs =>
    let r := splitOnChar sep cs
    if c = sep then [] :: r
    else
      match r with
      | h :: t => (c :: h) :: t
      | [] => [[c]]

/-- Python `sep.join(chunks)`. -/
def joinSep (sep : List Char) : List (List Char) → List Char
  | [] => []
  | [x] => x
  | x :: xs => x ++ sep ++ joinSep sep xs

/-- Characters allowed in the `key` name of the array pattern: the regex
character class `[^=\s]`. -/
def isNameChar (c : Char) : Bool := !(c = '=') && !(isPySpace c)

/-- Scan for the first `]` (the non-greedy `.*?` of the pattern under
`re.DOTALL` stops at the first closing bracket); returns the characters before
it and the characters after it. -/
def splitAtRBracket : List Char → Option (List Char × List Char)
  | [] => none
  | c :: cs =>
    if c = ']' then some ([], cs)
    else
      match splitAtRBracket cs with
      | some (a, b) => some (c :: a, b)
      | none => none

/-- Attempt to match `(?P<key>\s*[^=\s]+\s*=\s*)\[(?P<items>.*?)\]` at the
current position (which the caller guarantees to be a line start, for the `^`
anchor under `re.MULTILINE`).  Returns `(key group, items group, rest of the
input after the match)`.  The three sub-patterns range over disjoint character
classes, so the greedy matching below is exactly what the Python regex engine
does. -/
def matchArrayAt (l : List Char) : Option (List Char × List Char × List Char) :=
  let ws1 := l.takeWhile isPySpace
  let r1 := l.dropWhile isPySpace
  let name := r1.takeWhile isNameChar
  let r2 := r1.dropWhile isNameChar
  if name.isEmpty then none
  else
    let ws2 := r2.takeWhile isPySpace
    let r3 := r2.dropWhile isPySpace
    match r3 with
    | '=' :: r4 =>
      let ws3 := r4.takeWhile isPySpace
      let r5 := r4.dropWhile isPySpace
      match r5 with
      | '[' :: r6 =>
        match splitAtRBracket r6 with
        | some (items, rest) =>
          some (ws1 ++ name ++ ws2 ++ ['='] ++ ws3, items, rest)
        | none => none
      | _ => none
    | _ => none

/-- One item of the `_replace_array` list comprehension (config.py line 49):
`item.strip().strip('"').strip("'")`. -/
def processItem (item : List Char) : List Char :=
  pyStripAllChar squote (pyStripAllChar dquote (pyStripList item))

/-- The full list comprehension of `_replace_array` (config.py lines 48-52):
split the items group on commas, keep the chunks that are non-empty after
whitespace-stripping, and strip whitespace and then all surrounding double and
single quotes from each kept chunk. -/
def replaceArrayItems (items : List Char) : List (List Char) :=
  ((splitOnChar ',' items).filter (fun item => !(pyStripList item).isEmpty)).map processItem

/-- The replacement text `f"{match.group('key')}{'\\n'.join(items)}"`
(config.py line 53).  `'\\n'` in Python source is the literal two-character
string backslash-`n`, so the join separator here is `['\\', 'n']`, not a
newline. -/
def replacementText (key items : List Char) : List Char :=
  key ++ joinSep ['\\', 'n'] (replaceArrayItems items)

/-- One pass of `re.sub`: scan the input left to right; at every line-start
position try the pattern; on a match emit the replacement and continue right
after the matched text (the replacement is not rescanned), otherwise move one
character forward.  `fuel` bounds the recursion; any `fuel` at least the length
of the input gives the exact `re.sub` behavior, and `arraySub` below passes the
length. -/
def arraySubAux : Nat → List Char → Bool → List Char
  | _, [], _ => []
  | 0, c :: cs, _ => c :: cs
  | fuel + 1, c :: cs, true =>
    match matchArrayAt (c :: cs) with
    | some (key, items, rest) =>
      replacementText key items ++ arraySubAux fuel rest false
    | none => c :: arraySubAux fuel cs (c = '\n')
  | fuel + 1, c :: cs, false => c :: arraySubAux fuel cs (c = '\n')

/-- `array_pattern.sub(_replace_array, content)` (config.py line 55). -/
def arraySub (content : String) : String :=
  String.mk (arraySubAux content.data.length content.data true)

/-- Whether the array pattern matches anywhere in the input: the same scan as
`arraySubAux`, reporting instead of rewriting.  This is the formal reading of
"the content contains a bracketed-array value". -/
def hasArrayMatchAux : List Char → Bool → Bool
  | [], _ => false
  | c :: cs, true =>
    match matchArrayAt (c :: cs) with
    | some _ => true
    | none => hasArrayMatchAux cs (c = '\n')
  | c :: cs, false => hasArrayMatchAux cs (c = '\n')

/-- Whether `content` contains an occurrence of the bracketed-array pattern. -/
def hasArrayMatch (content : String) : Bool :=
  hasArrayMatchAux content.data true

/-- Parsed configuration storage: sections in file order, each with its options
in file order, option names already lowercased by `optionxform`. -/
abbrev Ini := List (String × List (String × String))

/-- Failure modes of stdlib `read_string` relevant here. -/
inductive ParseErr
  | missingSectionHeader
  | parsingError
  | duplicateSection
  | duplicateOption
deriving DecidableEq, Repr

/-- Working state of stdlib `RawConfigParser._read`: option values are still
lists of continuation parts (joined at the end).  `deferred` records that a
non-fatal parsing error was seen (`e = self._handle_error(...)` in `_read`):
the loop keeps parsing and the accumulated `ParsingError` is raised only after
the last line, while section-header and duplicate errors raise immediately. -/
structure ReadState where
  sections : List (String × List (String × List (List Char)))
  cursect : Option String
  optname : Option String
  indentLevel : Nat
  deferred : Bool

/-- Initial `_read` state. -/
def initReadState : ReadState := ⟨[], none, none, 0, false⟩

/-- Append one continuation part to an option value inside one section. -/
def appendPart (secs : List (String × List (String × List (List Char))))
    (s o : String) (part : List Char) :
    List (String × List (String × List (List Char))) :=
  secs.map (fun q =>
    if q.1 = s then
      (q.1, q.2.map (fun p => if p.1 = o then (p.1, p.2 ++ [part]) else p))
    else q)

/-- Add a fresh option with its first value part to a section. -/
def addOption (secs : List (String × List (String × List (List Char))))
    (s o : String) (v : List Char) :
    List (String × List (String × List (List Char))) :=
  secs.map (fun q => if q.1 = s then (q.1, q.2 ++ [(o, [v])]) else q)

/-- Does a section already define an option of this name? -/
def sectHasOpt (secs : List (String × List (String × List (List Char))))
    (s o : String) : Bool :=
  match secs.find? (fun q => q.1 == s) with
  | some q => q.2.any (fun p => p.1 == o)
  | none => false

/-- Stdlib `SECTCRE`, `\[(?P<header>[^]]+)\]`, matched (anchored at the start,
trailing text permitted by `re.match`) against the stripped line. -/
def sectHeader (value : List Char) : Option String :=
  match value with
  | '[' :: rest =>
    let hdr := rest.takeWhile (fun c => !(c = ']'))
    let rest2 := rest.dropWhile (fun c => !(c = ']'))
    if hdr.isEmpty then none
    else
      match rest2 with
      | ']' :: _ => some (String.mk hdr)
      | _ => none
  | _ => none

/-- Stdlib `OPTCRE`: split an option line at the first `=` or `:` delimiter;
returns the raw text before and after the delimiter, `none` when no delimiter
occurs (a `ParsingError` in the stdlib). -/
def splitOptLine (value : List Char) : Option (List Char × List Char) :=
  let isDelim : Char → Bool := fun c => c = '=' || c = ':'
  let pre := value.takeWhile (fun c => !(isDelim c))
  match value.dropWhile (fun c => !(isDelim c)) with
  | _ :: after => some (pre, after)
  | [] => none

/-- Handle a non-blank, non-comment, non-continuation line: set the new indent
level, then recognize a section header or an option assignment, exactly as the
`else` branch of the stdlib `_read` loop does.  Section-header and duplicate
errors raise immediately; a line with no `=`/`:` delimiter, and an option line
with an empty option name (`if not optname:` in `_read`), only record a
deferred `ParsingError` - the unmatched line stores nothing and leaves the
open option unchanged, while the empty-named option is still stored. -/
def headerOrOption (st : ReadState) (value : List Char) (curIndent : Nat) :
    Except ParseErr ReadState :=
  let st := { st with indentLevel := curIndent }
  match sectHeader value with
  | some h =>
    if st.sections.any (fun q => q.1 == h) then .error .duplicateSection
    else
      .ok { st with
        sections := st.sections ++ [(h, [])]
        cursect := some h
        optname := none }
  | none =>
    match st.cursect with
    | none => .error .missingSectionHeader
    | some s =>
      match splitOptLine value with
      | none => .ok { st with deferred := true }
      | some (optRaw, valRaw) =>
        let o := String.mk (pyLower (pyRStripList optRaw))
        let st := if o = "" then { st with deferred := true } else st
        if sectHasOpt st.sections s o then .error .duplicateOption
        else
          .ok { st with
            sections := addOption st.sections s o (pyStripList valRaw)
            optname := some o }

/-- One line of the stdlib `_read` loop (defaults: `empty_lines_in_values =
True`, comment prefixes `#` and `;`, no inline comments, strict mode). -/
def processLine (st : ReadState) (line : List Char) : Except ParseErr ReadState :=
  let stripped := pyStripList line
  match stripped with
  | [] =>
    match st.cursect, st.optname with
    | some s, some o =>
      if o != "" then .ok { st with sections := appendPart st.sections s o [] }
      else .ok st
    | _, _ => .ok st
  | c :: _ =>
    if c = '#' || c = ';' then .ok st
    else
      let curIndent := (line.takeWhile isPySpace).length
      match st.cursect, st.optname with
      | some s, some o =>
        if o != "" && decide (curIndent > st.indentLevel) then
          .ok { st with sections := appendPart st.sections s o stripped }
        else headerOrOption st stripped curIndent
      | _, _ => headerOrOption st stripped curIndent

/-- Stdlib `_join_multiline_values`: each option's parts are joined with a real
newline and right-stripped. -/
def finalizeIni (secs : List (String × List (String × List (List Char)))) : Ini :=
  secs.map (fun q =>
    (q.1, q.2.map (fun p => (p.1, String.mk (pyRStripList (joinSep ['\n'] p.2))))))

/-- Stdlib `read_string`: run `_read` over the lines, join the values, and
raise the accumulated `ParsingError` (`if e: raise e` at the end of `_read`)
when a deferred non-fatal error was recorded. -/
def readString (content : String) : Except ParseErr Ini := do
  let st ← (splitOnChar '\n' content.data).foldlM processLine initReadState
  if st.deferred then .error .parsingError
  else .ok (finalizeIni st.sections)

/-- Python exceptions that can escape the value-fetching code paths of
`merge_config`. -/
inductive PyErr
  | typeError
  | valueError
  | attributeError
  | parseErr (e : ParseErr)
deriving DecidableEq, Repr

/-- Stdlib `RawConfigParser.has_section(section)`: membership in the stored
section map (the `DEFAULT` section never counts). -/
def hasSection (ini : Ini) (sect : String) : Bool :=
  ini.any (fun q => q.1 == sect)

/-- Stdlib `RawConfigParser.has_option(section, option)`: the option name is
passed through `optionxform` (lowercasing) and looked up in the section.
`merge_config` only calls this after `has_section` succeeded, so the
`NoSectionError` branch of the stdlib is unreachable and a missing section is
reported as `false` here.  The stdlib's fallback to the `DEFAULT` section
(`or option in self._defaults`) is not modelled, consistently with `readString`
not separating `_defaults`; no input considered here defines `[DEFAULT]`. -/
def hasOption (ini : Ini) (sect opt : String) : Bool :=
  match ini.find? (fun q => q.1 == sect) with
  | some q => q.2.any (fun p => p.1 == String.mk (pyLower opt.data))
  | none => false

/-- Models the call expression `super().get(section, option, raw, vars, fallback)`
on config.py line 22.  The stdlib method is
`RawConfigParser.get(self, section, option, *, raw=False, vars=None, fallback=_UNSET)`:
`raw`, `vars` and `fallback` are keyword-only, so this positional call raises
`TypeError: RawConfigParser.get() takes 3 positional arguments but 6 were given`
before any lookup is performed. -/
def superGetCall (_ini : Ini) (_sect _opt : String) : Except PyErr String :=
  .error .typeError

namespace MultiLineConfigParser

/-- `MultiLineConfigParser.get` (config.py lines 21-25): delegate to the parent
class, then split the value on embedded newlines into an ordered sequence.
The delegation raises `TypeError` (see `superGetCall`), so the split is never
reached. -/
def get (ini : Ini) (sect opt : String) : Except PyErr (String ⊕ List String) := do
  let value ← superGetCall ini sect opt
  if value.data.contains '\n' then
    return Sum.inr ((splitOnChar '\n' value.data).map String.mk)
  return Sum.inl value

/-- Stdlib `_convert_to_boolean` with the default `BOOLEAN_STATES`
(`{'1': True, 'yes': True, 'true': True, 'on': True, '0': False, 'no': False,
'false': False, 'off': False}`): lowercase the value, look it up, raise
`ValueError` when absent. -/
def convertToBoolean (value : String) : Except PyErr Bool :=
  let v := String.mk (pyLower value.data)
  if v = "1" then .ok true
  else if v = "yes" then .ok true
  else if v = "true" then .ok true
  else if v = "on" then .ok true
  else if v = "0" then .ok false
  else if v = "no" then .ok false
  else if v = "false" then .ok false
  else if v = "off" then .ok false
  else .error .valueError

/-- Stdlib `RawConfigParser.getboolean(section, option)`: fetch the value via
`self.get` - which dispatches to the `MultiLineConfigParser.get` override - and
coerce it with `_convert_to_boolean`.  A list value would raise
`AttributeError` inside the coercion (`value.lower()` on a list); the fetch
itself raises `TypeError` first. -/
def getboolean (ini : Ini) (sect opt : String) : Except PyErr Bool := do
  match ← get ini sect opt with
  | Sum.inl s => convertToBoolean s
  | Sum.inr _ => .error .attributeError

/-- `MultiLineConfigParser.read` (config.py lines 27-58) for a single path, with
the filesystem abstracted as `fs : String -> Option String`.  When the file
cannot be opened the source falls back to `super().read(filenames)`, and the
stdlib `read` silently skips unreadable paths, leaving the parser empty.
Otherwise the normalized text is parsed with `read_string`. -/
def read (fs : String → Option String) (path : String) : Except ParseErr Ini :=
  match fs path with
  | none => .ok []
  | some content => readString (arraySub content)

end MultiLineConfigParser

/-- Modelled from the spec: the exit-code constants imported from
`pytest_watch/constants.py`, which is not under `src/`.  The spec (section 6)
describes "a small set of known exit-code values meaning ok, no tests
collected, and interrupted"; the values below are pytest's. -/
def EXIT_OK : Int := 0

/-- Modelled from the spec: see `EXIT_OK`. -/
def EXIT_INTERRUPTED : Int := 2

/-- Modelled from the spec: see `EXIT_OK`. -/
def EXIT_NOTESTSCOLLECTED : Int := 5

/-- Outcome of one dry `pytest.main(argv, plugins=[collect_config_plugin])`
invocation, abstracted as an oracle: either the `CollectConfig` plugin saw a
resolved config file, recorded its path and raised `StopCollect`, or pytest ran
to completion and returned an exit code (in which case the plugin's recorded
path is still `None`). -/
inductive PytestResult
  | stopped (path : String)
  | exited (code : Int)

/-- Exceptions escaping `_run_pytest_collect`. -/
inductive CollectFail
  | keyboardInterrupt
  | collectError
deriving DecidableEq, Repr

/-- `_run_pytest_collect` (config.py lines 92-107): a `StopCollect` unwind
returns the recorded path; the `EXIT_INTERRUPTED` exit code is re-raised as
`KeyboardInterrupt`; any exit code outside `{EXIT_OK, EXIT_NOTESTSCOLLECTED}`
raises `CollectError`; otherwise the (never set) plugin path `None` is
returned. -/
def runPytestCollect (r : PytestResult) : Except CollectFail (Option String) :=
  match r with
  | .stopped path => .ok (some path)
  | .exited code =>
    if code = EXIT_INTERRUPTED then .error .keyboardInterrupt
    else if code = EXIT_OK || code = EXIT_NOTESTSCOLLECTED then .ok none
    else .error .collectError

/-- `_collect_config` (config.py lines 110-126): when silenced, any exception
from the first attempt is swallowed, a diagnostic is printed and the same
invocation is retried unsilenced; the model treats the dry invocation as
deterministic, so the retry reproduces the first outcome.  (Output silencing
via `silence()` from the absent `util.py` has no bearing on the returned
value.) -/
def collectConfig (r : PytestResult) (silent : Bool) :
    Except CollectFail (Option String) :=
  if silent then
    match runPytestCollect r with
    | .ok p => .ok p
    | .error _ => runPytestCollect r
  else runPytestCollect r

/-- A value of the caller's argument structure: a Python `bool`, `list`,
`str` or `None` (the `docopt` dictionary of the caller). -/
inductive ArgValue
  | boolV (b : Bool)
  | listV (xs : List String)
  | strV (s : String)
  | noneV
deriving DecidableEq, Repr

/-- Python truthiness of an `ArgValue`, as tested by `if args[cli_name]:`. -/
def truthy : ArgValue → Bool
  | .boolV b => b
  | .listV xs => !xs.isEmpty
  | .strV s => !(s == "")
  | .noneV => false

/-- `cli_name.startswith(CLI_OPTION_PREFIX)` with `CLI_OPTION_PREFIX = "--"`. -/
def startsWithDashDash (s : String) : Bool :=
  match s.data with
  | '-' :: '-' :: _ => true
  | _ => false

/-- The body of the `for cli_name in args:` loop of `merge_config` (config.py
lines 146-169) for a single entry: skip names without the `--` prefix, let a
truthy CLI value take precedence, skip options the config section does not
define, then merge by the current value's type (extend a list, coerce a
boolean, assign the raw value otherwise). -/
def mergeOption (ini : Ini) (cliName : String) (v : ArgValue) :
    Except PyErr ArgValue :=
  if !(startsWithDashDash cliName) then .ok v
  else
    let configName := String.mk (cliName.data.drop 2)
    if truthy v then .ok v
    else if !(hasOption ini "pytest-watch" configName) then .ok v
    else
      match v with
      | .listV xs => do
        match ← MultiLineConfigParser.get ini "pytest-watch" configName with
        | Sum.inr value => .ok (.listV (xs ++ value))
        | Sum.inl value => .ok (.listV (xs ++ [value]))
      | .boolV _ => do
        let b ← MultiLineConfigParser.getboolean ini "pytest-watch" configName
        .ok (.boolV b)
      | _ => do
        match ← MultiLineConfigParser.get ini "pytest-watch" configName with
        | Sum.inl s => .ok (.strV s)
        | Sum.inr xs => .ok (.listV xs)

/-- The whole merge loop over the argument structure (a Python `dict` iterated
in insertion order).  The first component reports an uncaught exception; the
second is the final state of the structure: entries before the failing one keep
their merged values, the failing entry and everything after it are unchanged,
mirroring in-place mutation interrupted by an exception. -/
def mergeArgs (ini : Ini) :
    List (String × ArgValue) → Option PyErr × List (String × ArgValue)
  | [] => (none, [])
  | (k, v) :: rest =>
    match mergeOption ini k v with
    | .ok v2 =>
      let r := mergeArgs ini rest
      (r.1, (k, v2) :: r.2)
    | .error e => (some e, (k, v) :: rest)

/-- Result of one `merge_config` call: a returned boolean or an uncaught Python
exception. -/
inductive MergeResult
  | ok (b : Bool)
  | raised (e : PyErr)
deriving DecidableEq, Repr

/-- `merge_config(args, pytest_args, silent, verbose)` (config.py lines
129-171).  `KeyboardInterrupt` and `CollectError` from discovery are caught and
mapped to `False`; a falsy (`None` or empty) config path returns `True`; a
parse failure in `config.read` propagates; a missing `pytest-watch` section
returns `True`; otherwise the merge loop runs and any exception it raises
propagates.  The second component is the argument structure after the call
(mutated in place in Python).  The `verbose` flag only prints and is omitted. -/
def merge_config (r : PytestResult) (fs : String → Option String)
    (args : List (String × ArgValue)) (silent : Bool) :
    MergeResult × List (String × ArgValue) :=
  match collectConfig r silent with
  | .error _ => (.ok false, args)
  | .ok configPath =>
    match configPath with
    | none => (.ok true, args)
    | some path =>
      if path = "" then (.ok true, args)
      else
        match MultiLineConfigParser.read fs path with
        | .error e => (.raised (.parseErr e), args)
        | .ok ini =>
          if !(hasSection ini "pytest-watch") then (.ok true, args)
          else
            match mergeArgs ini args with
            | (some e, args2) => (.raised e, args2)
            | (none, args2) => (.ok true, args2)

/-- Modelled from the spec's words, for comparison with the source's
`processItem` (claim C4): removing exactly ONE layer of surrounding single or
double quotes, i.e. one leading and one trailing occurrence of the same quote
character when both are present. -/
def stripOneQuoteLayer (cs : List Char) : List Char :=
  match cs with
  | [] => []
  | c :: rest =>
    if (c = dquote || c = squote) && !rest.isEmpty && rest.getLast? == some c
    then rest.dropLast
    else cs

/-- Concrete filesystem for the C1 scenario: a config file with a bracketed
array value for `ignore`. -/
def c1fs : String → Option String := fun p =>
  if p = "tox.ini" then some "[pytest-watch]\nignore = [ \"a\", \"b\" ]" else none

/-- Concrete filesystem for the C2 counterexample: the `pytest-watch` section
defines `opt` as the two-element sequence `y`, `z` (native multi-line form). -/
def c2fs : String → Option String := fun p =>
  if p = "tox.ini" then some "[pytest-watch]\nopt = y\n    z" else none

/-- Concrete filesystem for the C5 counterexample: a well-formed config file
whose `pytest-watch` section sets the boolean option `clear`. -/
def c5fs : String → Option String := fun p =>
  if p = "setup.cfg" then some "[pytest-watch]\nclear = yes" else none

/-- Concrete filesystem for the C5 counterexample: malformed config content
(an option line before any section header). -/
def c5fsBad : String → Option String := fun p =>
  if p = "bad.cfg" then some "what is this" else none

/-- Concrete filesystem for the C6 witness: the config section defines the
same option the CLI already set. -/
def c6fs : String → Option String := fun p =>
  if p = "setup.cfg" then some "[pytest-watch]\nverbose = false" else none

/-- A truthy CLI value short-circuits the merge loop body: the entry is
returned unchanged (config.py lines 151-153). -/
theorem mergeOption_truthy (ini : Ini) (k : String) (v : ArgValue)
    (h : truthy v = true) : mergeOption ini k v = .ok v := by
  unfold mergeOption
  split
  · rfl
  · simp [h]

/-- Entries with truthy values survive the merge loop unchanged, wherever they
sit in the structure and whether or not a later entry raises. -/
theorem mergeArgs_mem_truthy (ini : Ini) (args : List (String × ArgValue))
    (k : String) (v : ArgValue) (hmem : (k, v) ∈ args)
    (htr : truthy v = true) : (k, v) ∈ (mergeArgs ini args).2 := by
  induction args with
  | nil => cases hmem
  | cons hd tl ih =>
    obtain ⟨k1, v1⟩ := hd
    rw [mergeArgs]
    rcases List.mem_cons.mp hmem with heq | hmem2
    · obtain ⟨hk, hv⟩ := Prod.mk.injEq k v k1 v1 ▸ heq
      subst hk; subst hv
      rw [mergeOption_truthy ini k v htr]
      exact List.mem_cons_self _ _
    · cases hmo : mergeOption ini k1 v1 with
      | ok v2 => exact List.mem_cons_of_mem _ (ih hmem2)
      | error e => exact List.mem_cons_of_mem _ hmem2

/-- The merge loop never adds or removes a key: the key list (with order and
multiplicity) is unchanged. -/
theorem mergeArgs_keys (ini : Ini) (args : List (String × ArgValue)) :
    ((mergeArgs ini args).2).map Prod.fst = args.map Prod.fst := by
  induction args with
  | nil => rfl
  | cons hd tl ih =>
    obtain ⟨k1, v1⟩ := hd
    rw [mergeArgs]
    cases hmo : mergeOption ini k1 v1 with
    | ok v2 => simpa using ih
    | error e => simp

/-- Keeping the non-empty chunks with `filter` and mapping the item cleanup
over them is one `filterMap`. -/
theorem filterNonempty_map_eq_filterMap (f : List Char → List Char)
    (l : List (List Char)) :
    (l.filter (fun item => !(pyStripList item).isEmpty)).map f =
      l.filterMap (fun item =>
        if (pyStripList item).isEmpty then none else some (f item)) := by
  induction l with
  | nil => rfl
  | cons hd tl ih =>
    cases h : (pyStripList hd).isEmpty with
    | true =>
      have h2 : pyStripList hd = [] := by
        cases hl : pyStripList hd with
        | nil => rfl
        | cons a l2 => rw [hl] at h; simp [List.isEmpty] at h
      simp [List.filter_cons, List.filterMap_cons, h, h2, ih]
    | false =>
      have h2 : ¬ pyStripList hd = [] := by
        intro hh; rw [hh] at h; simp [List.isEmpty] at h
      simp [List.filter_cons, List.filterMap_cons, h, h2, ih]

/-- The `re.sub` scan leaves input without a pattern occurrence untouched, for
every fuel value. -/
theorem arraySubAux_no_match (fuel : Nat) :
    ∀ (cs : List Char) (b : Bool),
      hasArrayMatchAux cs b = false → arraySubAux fuel cs b = cs := by
  induction fuel with
  | zero => intro cs b _; cases cs <;> rfl
  | succ n ih =>
    intro cs b h
    cases cs with
    | nil => rfl
    | cons c cs =>
      cases b with
      | true =>
        rw [hasArrayMatchAux] at h
        rw [arraySubAux]
        cases hm : matchArrayAt (c :: cs) with
        | some m => rw [hm] at h; simp at h
        | none =>
          rw [hm] at h
          have h2 : hasArrayMatchAux cs (c = '\n') = false := h
          show c :: arraySubAux n cs (c = '\n') = c :: cs
          rw [ih cs (c = '\n') h2]
      | false =>
        rw [hasArrayMatchAux] at h
        rw [arraySubAux]
        rw [ih cs (c = '\n') h]

/-- The argument structure produced by `merge_config` is either untouched or
the output of the merge loop on some parsed config. -/
theorem merge_config_snd (r : PytestResult) (fs : String → Option String)
    (args : List (String × ArgValue)) (silent : Bool) :
    (merge_config r fs args silent).2 = args ∨
      ∃ ini, (merge_config r fs args silent).2 = (mergeArgs ini args).2 := by
  unfold merge_config
  cases collectConfig r silent with
  | error e => exact Or.inl rfl
  | ok cp =>
    cases cp with
    | none => exact Or.inl rfl
    | some path =>
      dsimp only
      by_cases hp : path = ""
      · rw [if_pos hp]; exact Or.inl rfl
      · rw [if_neg hp]
        cases MultiLineConfigParser.read fs path with
        | error e => exact Or.inl rfl
        | ok ini =>
          dsimp only
          cases hs : hasSection ini "pytest-watch" with
          | false => exact Or.inl rfl
          | true =>
            refine Or.inr ⟨ini, ?_⟩
            rcases hq : mergeArgs ini args with ⟨oe, args2⟩
            cases oe <;> rfl

/-! ## Claim theorems -/

/-- C10: applying the bracketed-array normalization to content that contains no
bracketed-array value returns the content unchanged. -/
theorem c10_normalize_noop (content : String)
    (h : hasArrayMatch content = false) : arraySub content = content := by
  unfold arraySub
  unfold hasArrayMatch at h
  rw [arraySubAux_no_match _ _ _ h]

/-- Witness for C10 at a concrete already-normalized config text. -/
theorem c10_normalize_noop_witness :
    hasArrayMatch "[pytest-watch]\nignore = a\n    b" = false
  ∧ arraySub "[pytest-watch]\nignore = a\n    b" = "[pytest-watch]\nignore = a\n    b" :=
  ⟨by decide, c10_normalize_noop _ (by decide)⟩

/-- C4, counterexample: the item `""a""` keeps NO quote layer (Python
`strip('"')` removes all of them), where one-layer stripping would leave
`"a"`; and the item `""` (after `a,` and before `,b`) is kept as an EMPTY
token in the result, not dropped. -/
theorem c4_quote_stripping_counterexample :
    replaceArrayItems " \"\"a\"\" ".data = ["a".data]
  ∧ stripOneQuoteLayer (pyStripList " \"\"a\"\" ".data) = "\"a\"".data
  ∧ "a".data ≠ "\"a\"".data
  ∧ replaceArrayItems "a, \"\", b".data = ["a".data, [], "b".data]
  ∧ [] ∈ replaceArrayItems "a, \"\", b".data := by
  refine ⟨by decide, by decide, by decide, by decide, by decide⟩

/-- C4, amended: each comma-separated token that is non-empty after whitespace
trimming is trimmed of whitespace, then of ALL leading and trailing double
quotes, then of ALL leading and trailing single quotes (not one layer);
tokens that are empty after whitespace trimming are dropped before quote
stripping, so a token consisting only of quotes survives as an empty string. -/
theorem c4_quote_stripping_amended (items : List Char) :
    replaceArrayItems items =
      (splitOnChar ',' items).filterMap (fun item =>
        if (pyStripList item).isEmpty then none
        else some (pyStripAllChar squote (pyStripAllChar dquote (pyStripList item)))) := by
  unfold replaceArrayItems
  rw [filterNonempty_map_eq_filterMap]
  rfl

/-- C3, counterexample: the boolean coercion also accepts the spelling `on`
(stdlib `BOOLEAN_STATES`), which is not among
`true`/`false`/`yes`/`no`/`1`/`0`, so the accepted set is not exactly the
claimed one. -/
theorem c3_boolean_spellings_counterexample :
    MultiLineConfigParser.convertToBoolean "on" = .ok true
  ∧ String.mk (pyLower "on".data) ∉
      (["true", "false", "yes", "no", "1", "0"] : List String) := by
  refine ⟨by decide, by decide⟩

/-- C3, amended: the boolean coercion used by `getboolean` accepts exactly the
case-insensitive spellings `1`/`yes`/`true`/`on`/`0`/`no`/`false`/`off` and
raises `ValueError` on every other spelling instead of defaulting. -/
theorem c3_boolean_spellings_amended (s : String) :
    (∃ b, MultiLineConfigParser.convertToBoolean s = .ok b) ↔
      String.mk (pyLower s.data) ∈
        (["1", "yes", "true", "on", "0", "no", "false", "off"] : List String) := by
  simp only [MultiLineConfigParser.convertToBoolean]
  split_ifs with h1 h2 h3 h4 h5 h6 h7 h8 <;> simp_all

/-- C1: the claim is right and the code is wrong.  A bracketed array is
normalized with the literal two-character separator backslash-`n` (the
f-string `'\\n'` on config.py line 53), so `opt = [a, b, c]` is stored as the
single scalar `a\nb\nc` (with literal backslashes) while the native multi-line
form is stored as a real-newline value - the two dialects do NOT round-trip to
the same sequence.  On top of that, `MultiLineConfigParser.get` passes
`raw, vars, fallback` positionally to the keyword-only stdlib `get`, raising
`TypeError`, so the merge scenario raises instead of setting `--ignore` to
`["a", "b"]`. -/
theorem c1_array_dialect_code_bug :
    readString (arraySub "[pytest-watch]\nopt = [a, b, c]")
      = .ok [("pytest-watch", [("opt", "a\\nb\\nc")])]
  ∧ readString "[pytest-watch]\nopt = a\n    b\n    c"
      = .ok [("pytest-watch", [("opt", "a\nb\nc")])]
  ∧ ("a\\nb\\nc" : String) ≠ "a\nb\nc"
  ∧ MultiLineConfigParser.get [("pytest-watch", [("opt", "a\nb\nc")])]
      "pytest-watch" "opt" = .error .typeError
  ∧ merge_config (.stopped "tox.ini") c1fs [("--ignore", .listV [])] true
      = (.raised .typeError, [("--ignore", .listV [])]) := by
  refine ⟨by decide, by decide, by decide, by decide, by decide⟩

/-- C2, counterexample: with CLI list `["x"]` (truthy) and config list
`["y", "z"]` for the same option, `merge_config` leaves the value at `["x"]`
(CLI precedence skips the entry), not the claimed `["x", "y", "z"]`. -/
theorem c2_accumulate_counterexample :
    merge_config (.stopped "tox.ini") c2fs [("--opt", .listV ["x"])] true
      = (.ok true, [("--opt", .listV ["x"])])
  ∧ ArgValue.listV ["x"] ≠ ArgValue.listV ["x", "y", "z"] := by
  refine ⟨by decide, by decide⟩

/-- C2, amended: a sequence-typed CLI argument with a non-empty (truthy) value
is never extended with config items - the merge loop body returns it
unchanged; config items could only ever be appended to an empty CLI list. -/
theorem c2_amended_nonempty_list_unchanged (ini : Ini) (k : String)
    (xs : List String) (h : xs ≠ []) :
    mergeOption ini k (.listV xs) = .ok (.listV xs) := by
  apply mergeOption_truthy
  cases xs with
  | nil => exact absurd rfl h
  | cons a l => rfl

/-- Witness for the amended C2 at the concrete CLI list `["x"]`. -/
theorem c2_amended_nonempty_list_unchanged_witness :
    (["x"] : List String) ≠ []
  ∧ mergeOption [("pytest-watch", [("opt", "y\nz")])] "--opt" (.listV ["x"])
      = .ok (.listV ["x"]) :=
  ⟨by decide,
   c2_amended_nonempty_list_unchanged [("pytest-watch", [("opt", "y\nz")])]
     "--opt" ["x"] (by decide)⟩

/-- C5, counterexample: `merge_config` does not always return a boolean.  A
well-formed config whose section sets a boolean-typed option makes the merge
loop raise `TypeError` (the `get` delegation bug), and malformed config
content makes `config.read` raise a parse error; neither is caught. -/
theorem c5_merge_raises_counterexample :
    merge_config (.stopped "setup.cfg") c5fs [("--clear", .boolV false)] true
      = (.raised .typeError, [("--clear", .boolV false)])
  ∧ merge_config (.stopped "bad.cfg") c5fsBad [("--clear", .boolV false)] true
      = (.raised (.parseErr .missingSectionHeader), [("--clear", .boolV false)]) := by
  refine ⟨by decide, by decide⟩

/-- C5, amended: discovery failures (interruption or collection error, i.e.
any dry-run exit code outside the accepted set) surface only as the boolean
`false`; an unopenable config file is absorbed locally (merge returns `true`);
but other parsing-level issues are NOT absorbed - they raise (see the
counterexample). -/
theorem c5_amended_propagation :
    (∀ (fs : String → Option String) (args : List (String × ArgValue))
        (silent : Bool) (code : Int),
        code ≠ EXIT_OK → code ≠ EXIT_NOTESTSCOLLECTED →
        merge_config (.exited code) fs args silent = (.ok false, args))
  ∧ (∀ (path : String) (args : List (String × ArgValue)) (silent : Bool),
        merge_config (.stopped path) (fun _ => none) args silent
          = (.ok true, args)) := by
  constructor
  · intro fs args silent code h1 h2
    have hr : ∃ e, runPytestCollect (.exited code) = .error e := by
      unfold runPytestCollect
      by_cases hi : code = EXIT_INTERRUPTED
      · exact ⟨.keyboardInterrupt, by simp [hi]⟩
      · exact ⟨.collectError, by simp [hi, h1, h2]⟩
    obtain ⟨e, hr⟩ := hr
    unfold merge_config collectConfig
    cases silent <;> simp [hr]
  · intro path args silent
    unfold merge_config collectConfig runPytestCollect
    by_cases hp : path = ""
    · cases silent <;> simp [hp]
    · cases silent <;> simp [hp, MultiLineConfigParser.read, hasSection]

/-- Witness for the amended C5 at exit code 3 and at a missing config file. -/
theorem c5_amended_propagation_witness :
    ((3 : Int) ≠ EXIT_OK) ∧ ((3 : Int) ≠ EXIT_NOTESTSCOLLECTED)
  ∧ merge_config (.exited 3) (fun _ => none) [("--foo", .noneV)] true
      = (.ok false, [("--foo", .noneV)])
  ∧ merge_config (.stopped "missing.cfg") (fun _ => none) [("--foo", .noneV)] true
      = (.ok true, [("--foo", .noneV)]) :=
  ⟨by decide, by decide,
   c5_amended_propagation.1 (fun _ => none) [("--foo", .noneV)] true 3
     (by decide) (by decide),
   c5_amended_propagation.2 "missing.cfg" [("--foo", .noneV)] true⟩

/-- C6: an entry of the argument structure whose CLI value is truthy is never
altered by `merge_config`, whatever the discovery outcome, filesystem and
config content. -/
theorem c6_truthy_cli_never_altered (r : PytestResult)
    (fs : String → Option String) (args : List (String × ArgValue))
    (silent : Bool) (k : String) (v : ArgValue)
    (hmem : (k, v) ∈ args) (htr : truthy v = true) :
    (k, v) ∈ (merge_config r fs args silent).2 := by
  rcases merge_config_snd r fs args silent with h | ⟨ini, h⟩
  · rw [h]; exact hmem
  · rw [h]; exact mergeArgs_mem_truthy ini args k v hmem htr

/-- Witness for C6: a truthy flag survives a merge whose config section
defines the same option. -/
theorem c6_truthy_cli_never_altered_witness :
    (("--verbose", ArgValue.boolV true) ∈ [("--verbose", ArgValue.boolV true)])
  ∧ truthy (.boolV true) = true
  ∧ ("--verbose", ArgValue.boolV true) ∈
      (merge_config (.stopped "setup.cfg") c6fs
        [("--verbose", .boolV true)] true).2 :=
  ⟨by decide, rfl,
   c6_truthy_cli_never_altered (.stopped "setup.cfg") c6fs
     [("--verbose", .boolV true)] true "--verbose" (.boolV true)
     (by decide) rfl⟩

/-- C8: `merge_config` never adds or removes a key of the argument structure -
the key list (order and multiplicity included) of the output equals that of
the input, for every discovery outcome, filesystem, input structure and
silencing flag. -/
theorem c8_key_set_invariant (r : PytestResult)
    (fs : String → Option String) (args : List (String × ArgValue))
    (silent : Bool) :
    ((merge_config r fs args silent).2).map Prod.fst = args.map Prod.fst := by
  rcases merge_config_snd r fs args silent with h | ⟨ini, h⟩
  · rw [h]
  · rw [h, mergeArgs_keys]

/-- C9: when the dry test-runner invocation completes with the interrupted
exit code, `_run_pytest_collect` re-raises it as `KeyboardInterrupt`, which
`merge_config` catches and maps to `False`, leaving the arguments unchanged. -/
theorem c9_interrupted_returns_false (fs : String → Option String)
    (args : List (String × ArgValue)) (silent : Bool) :
    merge_config (.exited EXIT_INTERRUPTED) fs args silent
      = (.ok false, args) := by
  have hr : runPytestCollect (.exited EXIT_INTERRUPTED)
      = .error .keyboardInterrupt := by
    unfold runPytestCollect; simp
  unfold merge_config collectConfig
  cases silent <;> simp [hr]

end PytestWatch
